import Mathlib

/- Shallow embedding of the AI movement-after-destination rule of the VCMI
pathfinding layer (AI/Nullkiller/Pathfinding/Rules/AIMovementAfterDestinationRule.cpp).
External collaborators (guardian query, quest capability, risk oracle, the
inefficiency and distance-limit heuristics of the node storage) are opaque
oracle interfaces, collected in an environment record.  Machine integers of
the source (uint64_t army values, losses and dangers) are modelled as Nat
with explicit wrap-around modulo 2^64 where the source can overflow. -/

namespace AIPathfinding

/-- The modulus of uint64_t, written as a literal: 2 ^ 64. -/
def U64 : Nat := 18446744073709551616

/-- Unsigned 64-bit subtraction as performed by C++ uint64_t: wraps modulo 2^64. -/
def sub64 (a b : Nat) : Nat := (a % U64 + (U64 - b % U64)) % U64

/-- Unsigned 64-bit addition as performed by C++ uint64_t: wraps modulo 2^64. -/
def add64 (a b : Nat) : Nat := (a + b) % U64

/-- Map coordinate (int3 in the source): position plus map level. -/
structure Int3 where
  x : Int
  y : Int
  z : Int
deriving DecidableEq

/-- Object identifiers relevant to the rule (Obj::QUEST_GUARD, Obj::BORDERGUARD,
Obj::BORDER_GATE); every other object id is abstracted by its numeric code. -/
inductive ObjID where
  | QUEST_GUARD
  | BORDERGUARD
  | BORDER_GATE
  | OTHER (code : Nat)
deriving DecidableEq

/-- The quest mission type; the rule only distinguishes MISSION_NONE. -/
inductive MissionType where
  | MISSION_NONE
  | MISSION_OTHER (code : Nat)
deriving DecidableEq

/-- The quest attached to a quest-guard-like object (CQuest). -/
structure CQuest where
  missionType : MissionType
  qid : Nat
deriving DecidableEq

/-- The destination object (CGObjectInstance): identity reference, object id,
and the quest data reachable through the IQuestObject interface. -/
structure CGObjectInstance where
  ref : Nat
  ID : ObjID
  quest : CQuest
deriving DecidableEq

/-- Diplomatic relation between the evaluating player and a hero occupying
the destination (PlayerRelations). -/
inductive PlayerRelations where
  | ENEMIES
  | ALLIES
  | SAME_PLAYER
deriving DecidableEq

/-- Special action attached to a node: deferred quest interaction
(QuestAction over a QuestInfo) or simulated battle (BattleAction). -/
inductive SpecialAction where
  | questAction (quest : CQuest) (obj : CGObjectInstance) (tile : Int3)
  | battleAction (targetTile : Int3)
deriving DecidableEq

/-- Identity of an extended path node: coordinate, pathfinding layer and the
chain actor the node belongs to.  Node storage keys its AIPathNode records by
this triple; the battle-variant node shares coordinate and layer but carries
the battle actor. -/
structure NodeKey where
  coord : Int3
  layer : Nat
  actor : Nat
deriving DecidableEq

/-- The mutable per-node record owned by node storage (AIPathNode fields the
rule reads or writes): the one-way locked flag, accumulated army loss,
accumulated danger, the optional special action, and the provenance link. -/
structure AIPathNode where
  locked : Bool
  armyLoss : Nat
  danger : Nat
  specialAction : Option SpecialAction
  cameFrom : Option NodeKey
deriving DecidableEq

/-- A chain actor: army value, the permission to initiate combat, the id of
its battle-variant actor, and the hero reference (actor fields the rule reads). -/
structure ChainActor where
  armyValue : Nat
  allowBattle : Bool
  battleActor : Nat
  hero : Option Nat
deriving DecidableEq

/-- Node storage (AINodeStorage): the node records keyed by NodeKey, the actor
table, and the allocation oracle of getOrCreateNode (which can fail). -/
structure AINodeStorage where
  nodes : NodeKey → AIPathNode
  actors : Nat → ChainActor
  canAllocateBattleNode : NodeKey → Bool

/-- The source side of an edge evaluation (PathNodeInfo): its node and coordinate. -/
structure PathNodeInfo where
  node : NodeKey
  coord : Int3
deriving DecidableEq

/-- The destination side of an edge evaluation (CDestinationNodeInfo): node,
coordinate, occupying object and hero, the diplomatic relation to that hero,
and the blocked output flag. -/
structure CDestinationNodeInfo where
  node : NodeKey
  coord : Int3
  nodeObject : Option CGObjectInstance
  nodeHero : Option Nat
  heroRelations : PlayerRelations
  blocked : Bool
deriving DecidableEq

/-- The blocking classification enumeration (BlockingReason). -/
inductive BlockingReason where
  | NONE
  | DESTINATION_GUARDED
  | DESTINATION_BLOCKVIS
  | DESTINATION_VISIT
  | DESTINATION_BLOCKED
deriving DecidableEq

/-- External collaborators consumed by the rule, as pure oracles: the guardian
query (cb getGuardingCreatures), the blocking classifier (getBlockingReason,
a pure function per the spec), quest capability (wasVisited, checkQuest,
isObjectRemovable), the risk oracle (evaluateDanger, evaluateArmyLoss), the
node-storage heuristics (isMovementIneficient, isDistanceLimitReached), and
the pathfinder helper hero with its owner lookup. -/
structure Env where
  getGuardingCreatures : Int3 → List Nat
  getBlockingReason : PathNodeInfo → CDestinationNodeInfo → BlockingReason
  wasVisited : CGObjectInstance → Nat → Bool
  checkQuest : CGObjectInstance → Nat → Bool
  isObjectRemovable : CGObjectInstance → Bool
  evaluateDanger : Int3 → Option Nat → Bool → Nat
  evaluateArmyLoss : Option Nat → Nat → Nat → Nat
  isMovementIneficient : PathNodeInfo → CDestinationNodeInfo → Bool
  isDistanceLimitReached : PathNodeInfo → CDestinationNodeInfo → Bool
  heroTempOwner : Nat → Nat
  helperHero : Nat

/-- In-place node mutation funneled through node storage (updateAINode). -/
def updateAINode (st : AINodeStorage) (k : NodeKey) (f : AIPathNode → AIPathNode) :
    AINodeStorage :=
  { st with nodes := fun q => if q = k then f (st.nodes q) else st.nodes q }

/-- The hero associated with a node (AINodeStorage getHero: the node's actor's hero). -/
def getHero (st : AINodeStorage) (k : NodeKey) : Option Nat :=
  (st.actors k.actor).hero

/-- Node lookup or creation (AINodeStorage getOrCreateNode); returns none when
the storage cannot allocate a node for the requested key. -/
def getOrCreateNode (st : AINodeStorage) (coord : Int3) (layer : Nat) (actor : Nat) :
    Option NodeKey :=
  if st.canAllocateBattleNode ⟨coord, layer, actor⟩ = true then
    some ⟨coord, layer, actor⟩
  else
    none

/-- The key of the battle-variant node requested by bypassBattle: destination
coordinate, destination node layer, and the battle actor of the destination
node's actor (source lines 183-186). -/
def battleNodeKey (st : AINodeStorage) (destination : CDestinationNodeInfo) : NodeKey :=
  ⟨destination.coord, destination.node.layer,
    (st.actors destination.node.actor).battleActor⟩

/-- The remaining army value of the source actor: uint64 subtraction of the
source node's accumulated army loss from the actor's army value
(source line 214: actualArmyValue = armyValue - armyLoss). -/
def remainingArmyValue (st : AINodeStorage) (source : PathNodeInfo) : Nat :=
  sub64 (st.actors source.node.actor).armyValue (st.nodes source.node).armyLoss

/-- The oracle danger estimate at the destination for the travelling hero
(source line 213). -/
def dangerAtDestination (env : Env) (st : AINodeStorage) (source : PathNodeInfo)
    (destination : CDestinationNodeInfo) : Nat :=
  env.evaluateDanger destination.coord (getHero st source.node) true

/-- The oracle army-loss estimate for the computed danger (source line 215). -/
def estimatedLoss (env : Env) (st : AINodeStorage) (source : PathNodeInfo)
    (destination : CDestinationNodeInfo) : Nat :=
  env.evaluateArmyLoss (getHero st source.node) (remainingArmyValue st source)
    (dangerAtDestination env st source destination)

/-- Modelled from the spec: AINodeStorage.commit and the predecessor-linking
rule (AIPreviousNodeRule, source lines 220 and 226) are repository code outside
src; per the spec they record provenance, the back-link from the committed
destination node to the source node, and touch none of the fields this rule
reasons about (locked, armyLoss, danger, specialAction). -/
def recordProvenance (st : AINodeStorage) (destKey srcKey : NodeKey) : AINodeStorage :=
  updateAINode st destKey (fun n => { n with cameFrom := some srcKey })

/-- The storage mutations of a successful battle bypass (source lines 219-228):
commit the transition and record provenance, accumulate the estimated loss
into the battle node's army loss (uint64 addition), raise the battle node's
danger to the maximum of its prior value and the new danger (vstd::amax),
and attach the simulated-battle special action at the destination coordinate. -/
def battleCommit (env : Env) (st : AINodeStorage) (source : PathNodeInfo)
    (destination : CDestinationNodeInfo) : AINodeStorage :=
  let bk := battleNodeKey st destination
  let loss := estimatedLoss env st source destination
  let danger := dangerAtDestination env st source destination
  let st2 := recordProvenance st bk source.node
  let st3 := updateAINode st2 bk (fun n => { n with armyLoss := add64 n.armyLoss loss })
  let st4 := updateAINode st3 bk (fun n => { n with danger := max n.danger danger })
  updateAINode st4 bk (fun n =>
    { n with specialAction := some (SpecialAction.battleAction destination.coord) })

/-- Battle bypass (bypassBattle, source lines 175-241): request the
battle-variant node; fail if it cannot be allocated or is already locked;
otherwise accept exactly when the estimated loss is strictly below the
remaining army value, redirecting the destination to the battle node and
committing the battle mutations. -/
def bypassBattle (env : Env) (st : AINodeStorage) (source : PathNodeInfo)
    (destination : CDestinationNodeInfo) :
    Bool × AINodeStorage × CDestinationNodeInfo :=
  match getOrCreateNode st destination.coord destination.node.layer
      ((st.actors destination.node.actor).battleActor) with
  | none => (false, st, destination)
  | some bk =>
    if (st.nodes bk).locked = true then
      (false, st, destination)
    else
      if estimatedLoss env st source destination < remainingArmyValue st source then
        (true, battleCommit env st source destination, { destination with node := bk })
      else
        (false, st, destination)

/-- Whether the destination is occupied by an enemy hero
(source lines 82 and 124: nodeHero and heroRelations == ENEMIES). -/
abbrev enemyHeroAt (destination : CDestinationNodeInfo) : Prop :=
  destination.nodeHero ≠ none ∧ destination.heroRelations = PlayerRelations.ENEMIES

/-- Bypass of a physically blocked destination (bypassBlocker, source lines
76-90): delegate to battle bypass when an enemy hero occupies the destination,
otherwise fail. -/
def bypassBlocker (env : Env) (st : AINodeStorage) (source : PathNodeInfo)
    (destination : CDestinationNodeInfo) :
    Bool × AINodeStorage × CDestinationNodeInfo :=
  if enemyHeroAt destination then
    bypassBattle env st source destination
  else
    (false, st, destination)

/-- Removable-object bypass (bypassRemovableObject, source lines 92-135),
taking the destination object, which the caller has checked to be present.
Quest-guard-like objects: a quest guard with no mission fails; otherwise a
quest interaction is attached when the hero has not visited the object or does
not satisfy the quest, and the bypass succeeds.  Non-quest objects: with no
enemy hero and a non-removable object, succeed exactly when the node-storage
hero of the destination node equals the occupying hero; otherwise succeed. -/
def bypassRemovableObject (env : Env) (st : AINodeStorage)
    (destination : CDestinationNodeInfo) (obj : CGObjectInstance) :
    Bool × AINodeStorage :=
  if obj.ID = ObjID.QUEST_GUARD ∨ obj.ID = ObjID.BORDERGUARD
      ∨ obj.ID = ObjID.BORDER_GATE then
    if obj.ID = ObjID.QUEST_GUARD ∧ obj.quest.missionType = MissionType.MISSION_NONE then
      (false, st)
    else
      if env.wasVisited obj (env.heroTempOwner env.helperHero) = false
          ∨ env.checkQuest obj env.helperHero = false then
        (true, updateAINode st destination.node (fun n =>
          { n with specialAction :=
              Option.some (SpecialAction.questAction obj.quest obj destination.coord) }))
      else
        (true, st)
  else
    if ¬ enemyHeroAt destination ∧ env.isObjectRemovable obj = false then
      if getHero st destination.node = destination.nodeHero then
        (true, st)
      else
        (false, st)
    else
      (true, st)

/-- Guard bypass (bypassDestinationGuards, source lines 137-173): fail on an
empty destination guardian set; drop guardians already present at the source;
succeed without battle when that empties the set, the source had guardians and
the source actor allows battle; otherwise delegate to battle bypass. -/
def bypassDestinationGuards (env : Env) (st : AINodeStorage) (destGuardians : List Nat)
    (source : PathNodeInfo) (destination : CDestinationNodeInfo) :
    Bool × AINodeStorage × CDestinationNodeInfo :=
  let srcGuardians := env.getGuardingCreatures source.coord
  if destGuardians = [] then
    (false, st, destination)
  else
    let remainingGuardians := destGuardians.filter (fun g => ! srcGuardians.contains g)
    if (remainingGuardians = [] ∧ srcGuardians ≠ []) ∧
        (st.actors source.node.actor).allowBattle = true then
      (true, st, destination)
    else
      bypassBattle env st source destination

/-- Dispatch on the blocking reason (the switch of process, source lines
46-70), producing the allowBypass verdict together with the mutated storage
and destination view. -/
def dispatchBypass (env : Env) (st : AINodeStorage) (blocker : BlockingReason)
    (destGuardians : List Nat) (source : PathNodeInfo)
    (destination : CDestinationNodeInfo) :
    Bool × AINodeStorage × CDestinationNodeInfo :=
  match blocker with
  | BlockingReason.DESTINATION_GUARDED =>
    bypassDestinationGuards env st destGuardians source destination
  | BlockingReason.DESTINATION_BLOCKVIS =>
    match destination.nodeObject with
    | none => (false, st, destination)
    | some obj =>
      let r1 := bypassRemovableObject env st destination obj
      if r1.1 = true ∧ destGuardians ≠ [] then
        bypassDestinationGuards env r1.2 destGuardians source destination
      else
        (r1.1, r1.2, destination)
  | BlockingReason.DESTINATION_VISIT => (true, st, destination)
  | BlockingReason.DESTINATION_BLOCKED => bypassBlocker env st source destination
  | BlockingReason.NONE => (false, st, destination)

/-- The movement rule entry point (process, source lines 25-74): the
inefficiency short-circuit locks and blocks the destination; a NONE
classification leaves everything untouched; otherwise the matching bypass
strategy runs and the final verdict sets blocked to (not allowBypass) or
distance-limit-exceeded, and locked to (not allowBypass). -/
def process (env : Env) (st : AINodeStorage) (source : PathNodeInfo)
    (destination : CDestinationNodeInfo) :
    AINodeStorage × CDestinationNodeInfo :=
  if env.isMovementIneficient source destination = true then
    (updateAINode st destination.node (fun n => { n with locked := true }),
      { destination with blocked := true })
  else
    if env.getBlockingReason source destination = BlockingReason.NONE then
      (st, destination)
    else
      let destGuardians := env.getGuardingCreatures destination.coord
      let r := dispatchBypass env st (env.getBlockingReason source destination)
        destGuardians source destination
      let destination3 := { r.2.2 with
        blocked := (! r.1) || env.isDistanceLimitReached source r.2.2 }
      (updateAINode r.2.1 destination3.node (fun n => { n with locked := ! r.1 }),
        destination3)

/-- Modelled from the spec: the owning search loop (repository code outside
src) never re-evaluates an edge into a destination whose node is locked; per
the spec a locked node must never be re-expanded or re-evaluated as a
destination in the current search pass, and a second evaluation of any edge
into it yields blocked without re-running classification or bypass logic. -/
def evaluateEdge (env : Env) (st : AINodeStorage) (source : PathNodeInfo)
    (destination : CDestinationNodeInfo) :
    AINodeStorage × CDestinationNodeInfo :=
  if (st.nodes destination.node).locked = true then
    (st, { destination with blocked := true })
  else
    process env st source destination

/-- A sequence of edge evaluations within one search pass, threading the node
storage through successive calls of the movement rule. -/
def runEvaluations (env : Env) (st : AINodeStorage)
    (edges : List (PathNodeInfo × CDestinationNodeInfo)) : AINodeStorage :=
  edges.foldl (fun acc e => (evaluateEdge env acc e.1 e.2).1) st

/- Concrete fixtures used by witness and counterexample theorems. -/

def cCoordA : Int3 := ⟨0, 0, 0⟩

def cCoordB : Int3 := ⟨1, 0, 0⟩

def cKeyA : NodeKey := ⟨cCoordA, 0, 3⟩

def cKeyB : NodeKey := ⟨cCoordB, 0, 3⟩

def cSource : PathNodeInfo := ⟨cKeyA, cCoordA⟩

def cNode : AIPathNode :=
  { locked := false, armyLoss := 0, danger := 0, specialAction := none, cameFrom := none }

def cLockedNode : AIPathNode := { cNode with locked := true }

def cActor : ChainActor :=
  { armyValue := 1000, allowBattle := true, battleActor := 7, hero := some 1 }

def cStorage : AINodeStorage :=
  { nodes := fun _ => cNode, actors := fun _ => cActor,
    canAllocateBattleNode := fun _ => true }

def cStorageLocked : AINodeStorage := { cStorage with nodes := fun _ => cLockedNode }

def cStorageWrapped : AINodeStorage :=
  { nodes := fun _ => { cNode with armyLoss := 25 },
    actors := fun _ => { cActor with armyValue := 10 },
    canAllocateBattleNode := fun _ => true }

def cEnv : Env :=
  { getGuardingCreatures := fun _ => [],
    getBlockingReason := fun _ _ => BlockingReason.NONE,
    wasVisited := fun _ _ => false,
    checkQuest := fun _ _ => false,
    isObjectRemovable := fun _ => false,
    evaluateDanger := fun _ _ _ => 400,
    evaluateArmyLoss := fun _ _ _ => 300,
    isMovementIneficient := fun _ _ => false,
    isDistanceLimitReached := fun _ _ => false,
    heroTempOwner := fun _ => 0,
    helperHero := 1 }

def cEnvGuards : Env := { cEnv with getGuardingCreatures := fun _ => [5] }

def cEnvVisit : Env :=
  { cEnv with getBlockingReason := fun _ _ => BlockingReason.DESTINATION_VISIT }

def cEnvIneff : Env := { cEnv with isMovementIneficient := fun _ _ => true }

def cNoQuest : CQuest := { missionType := MissionType.MISSION_OTHER 0, qid := 9 }

def cQuestGuardNoMission : CGObjectInstance :=
  { ref := 5, ID := ObjID.QUEST_GUARD,
    quest := { missionType := MissionType.MISSION_NONE, qid := 0 } }

def cBoulder : CGObjectInstance := { ref := 9, ID := ObjID.OTHER 22, quest := cNoQuest }

def cDestPlain : CDestinationNodeInfo :=
  { node := cKeyB, coord := cCoordB, nodeObject := none, nodeHero := none,
    heroRelations := PlayerRelations.ALLIES, blocked := false }

def cDestQuest : CDestinationNodeInfo :=
  { cDestPlain with nodeObject := some cQuestGuardNoMission }

def cDestOwnHero : CDestinationNodeInfo :=
  { cDestPlain with
    nodeObject := some cBoulder,
    nodeHero := some 1,
    heroRelations := PlayerRelations.SAME_PLAYER }

/- Helper lemmas: node-storage updates and the shape of each strategy. -/

theorem updateAINode_nodes (st : AINodeStorage) (k : NodeKey) (f : AIPathNode → AIPathNode)
    (q : NodeKey) :
    (updateAINode st k f).nodes q = if q = k then f (st.nodes q) else st.nodes q := rfl

theorem U64_eq_pow : U64 = 2 ^ 64 := by norm_num [U64]

theorem sub64_no_wrap (a b : Nat) (ha : a < U64) (hb : b < U64) :
    sub64 a b = (a + U64 - b) % U64 := by
  unfold sub64
  rw [Nat.mod_eq_of_lt ha, Nat.mod_eq_of_lt hb]
  congr 1
  omega

theorem sub64_wrap (a b : Nat) (ha : a < U64) (hb : b < U64) (hab : a < b) :
    sub64 a b = U64 - (b - a) := by
  unfold sub64
  rw [Nat.mod_eq_of_lt ha, Nat.mod_eq_of_lt hb, Nat.mod_eq_of_lt (by omega)]
  omega

theorem battleCommit_locked (env : Env) (st : AINodeStorage) (source : PathNodeInfo)
    (destination : CDestinationNodeInfo) (q : NodeKey) :
    ((battleCommit env st source destination).nodes q).locked = (st.nodes q).locked := by
  by_cases hq : q = battleNodeKey st destination <;>
    simp [battleCommit, recordProvenance, updateAINode, hq]

theorem battleCommit_armyLoss_self (env : Env) (st : AINodeStorage) (source : PathNodeInfo)
    (destination : CDestinationNodeInfo) :
    ((battleCommit env st source destination).nodes (battleNodeKey st destination)).armyLoss
      = add64 ((st.nodes (battleNodeKey st destination)).armyLoss)
          (estimatedLoss env st source destination) := by
  simp [battleCommit, recordProvenance, updateAINode]

theorem battleCommit_danger_self (env : Env) (st : AINodeStorage) (source : PathNodeInfo)
    (destination : CDestinationNodeInfo) :
    ((battleCommit env st source destination).nodes (battleNodeKey st destination)).danger
      = max ((st.nodes (battleNodeKey st destination)).danger)
          (dangerAtDestination env st source destination) := by
  simp [battleCommit, recordProvenance, updateAINode]

theorem battleCommit_action_self (env : Env) (st : AINodeStorage) (source : PathNodeInfo)
    (destination : CDestinationNodeInfo) :
    ((battleCommit env st source destination).nodes (battleNodeKey st destination)).specialAction
      = some (SpecialAction.battleAction destination.coord) := by
  simp [battleCommit, recordProvenance, updateAINode]

theorem bypassBattle_spec (env : Env) (st : AINodeStorage) (source : PathNodeInfo)
    (destination : CDestinationNodeInfo) :
    bypassBattle env st source destination =
      if st.canAllocateBattleNode (battleNodeKey st destination) = true then
        if (st.nodes (battleNodeKey st destination)).locked = true then
          (false, st, destination)
        else
          if estimatedLoss env st source destination < remainingArmyValue st source then
            (true, battleCommit env st source destination,
              { destination with node := battleNodeKey st destination })
          else
            (false, st, destination)
      else
        (false, st, destination) := by
  by_cases hc : st.canAllocateBattleNode ⟨destination.coord, destination.node.layer,
      (st.actors destination.node.actor).battleActor⟩ = true <;>
    simp [bypassBattle, getOrCreateNode, battleNodeKey, hc]

theorem bypassBattle_locked_all (env : Env) (st : AINodeStorage) (source : PathNodeInfo)
    (destination : CDestinationNodeInfo) (q : NodeKey) :
    (((bypassBattle env st source destination).2.1).nodes q).locked = (st.nodes q).locked := by
  rw [bypassBattle_spec]
  split
  · split
    · rfl
    · split
      · simp [battleCommit_locked]
      · rfl
  · rfl

theorem bypassBattle_accept_iff (env : Env) (st : AINodeStorage) (source : PathNodeInfo)
    (destination : CDestinationNodeInfo)
    (hAlloc : st.canAllocateBattleNode (battleNodeKey st destination) = true)
    (hLock : (st.nodes (battleNodeKey st destination)).locked = false) :
    (bypassBattle env st source destination).1 = true ↔
      estimatedLoss env st source destination < remainingArmyValue st source := by
  rw [bypassBattle_spec, if_pos hAlloc, if_neg (by simp [hLock])]
  by_cases hl : estimatedLoss env st source destination < remainingArmyValue st source <;>
    simp [hl]

theorem bypassBattle_success_parts (env : Env) (st : AINodeStorage) (source : PathNodeInfo)
    (destination : CDestinationNodeInfo)
    (hs : (bypassBattle env st source destination).1 = true) :
    (bypassBattle env st source destination).2.1 = battleCommit env st source destination ∧
    (bypassBattle env st source destination).2.2 =
      { destination with node := battleNodeKey st destination } ∧
    (st.nodes (battleNodeKey st destination)).locked = false := by
  by_cases h1 : st.canAllocateBattleNode (battleNodeKey st destination) = true
  · by_cases h2 : (st.nodes (battleNodeKey st destination)).locked = true
    · rw [bypassBattle_spec, if_pos h1, if_pos h2] at hs
      simp at hs
    · by_cases h3 : estimatedLoss env st source destination < remainingArmyValue st source
      · rw [bypassBattle_spec, if_pos h1, if_neg h2, if_pos h3]
        exact ⟨rfl, rfl, by simpa using h2⟩
      · rw [bypassBattle_spec, if_pos h1, if_neg h2, if_neg h3] at hs
        simp at hs
  · rw [bypassBattle_spec, if_neg h1] at hs
    simp at hs

theorem bypassBattle_success_unlocked (env : Env) (st : AINodeStorage) (source : PathNodeInfo)
    (destination : CDestinationNodeInfo)
    (hs : (bypassBattle env st source destination).1 = true) :
    (((bypassBattle env st source destination).2.1).nodes
      ((bypassBattle env st source destination).2.2.node)).locked = false := by
  obtain ⟨h1, h2, h3⟩ := bypassBattle_success_parts env st source destination hs
  rw [h1, h2]
  simpa [battleCommit_locked] using h3

theorem bypassRemovableObject_locked_all (env : Env) (st : AINodeStorage)
    (destination : CDestinationNodeInfo) (obj : CGObjectInstance) (q : NodeKey) :
    (((bypassRemovableObject env st destination obj).2).nodes q).locked
      = (st.nodes q).locked := by
  unfold bypassRemovableObject
  split
  · split
    · rfl
    · split
      · by_cases hq : q = destination.node <;> simp [updateAINode, hq]
      · rfl
  · split
    · split <;> rfl
    · rfl

theorem bypassDestinationGuards_locked_all (env : Env) (st : AINodeStorage)
    (destGuardians : List Nat) (source : PathNodeInfo)
    (destination : CDestinationNodeInfo) (q : NodeKey) :
    (((bypassDestinationGuards env st destGuardians source destination).2.1).nodes q).locked
      = (st.nodes q).locked := by
  simp only [bypassDestinationGuards]
  split
  · rfl
  · split
    · rfl
    · exact bypassBattle_locked_all env st source destination q

theorem bypassBlocker_locked_all (env : Env) (st : AINodeStorage) (source : PathNodeInfo)
    (destination : CDestinationNodeInfo) (q : NodeKey) :
    (((bypassBlocker env st source destination).2.1).nodes q).locked
      = (st.nodes q).locked := by
  unfold bypassBlocker
  split
  · exact bypassBattle_locked_all env st source destination q
  · rfl

theorem dispatchBypass_locked_all (env : Env) (st : AINodeStorage)
    (blocker : BlockingReason) (destGuardians : List Nat) (source : PathNodeInfo)
    (destination : CDestinationNodeInfo) (q : NodeKey) :
    (((dispatchBypass env st blocker destGuardians source destination).2.1).nodes q).locked
      = (st.nodes q).locked := by
  cases blocker with
  | NONE => rfl
  | DESTINATION_GUARDED =>
    exact bypassDestinationGuards_locked_all env st destGuardians source destination q
  | DESTINATION_VISIT => rfl
  | DESTINATION_BLOCKED => exact bypassBlocker_locked_all env st source destination q
  | DESTINATION_BLOCKVIS =>
    cases hobj : destination.nodeObject with
    | none => simp [dispatchBypass, hobj]
    | some obj =>
      simp only [dispatchBypass, hobj]
      split
      · rw [bypassDestinationGuards_locked_all, bypassRemovableObject_locked_all]
      · exact bypassRemovableObject_locked_all env st destination obj q

theorem bypassDestinationGuards_success_unlocked (env : Env) (st : AINodeStorage)
    (destGuardians : List Nat) (source : PathNodeInfo) (destination : CDestinationNodeInfo)
    (hd : (st.nodes destination.node).locked = false)
    (hs : (bypassDestinationGuards env st destGuardians source destination).1 = true) :
    (((bypassDestinationGuards env st destGuardians source destination).2.1).nodes
      ((bypassDestinationGuards env st destGuardians source destination).2.2.node)).locked
        = false := by
  simp only [bypassDestinationGuards] at hs ⊢
  split at hs
  · simp at hs
  · rename_i h1
    rw [if_neg h1]
    split at hs
    · rename_i h2
      rw [if_pos h2]
      exact hd
    · rename_i h2
      rw [if_neg h2]
      exact bypassBattle_success_unlocked env st source destination hs

theorem dispatchBypass_success_unlocked (env : Env) (st : AINodeStorage)
    (blocker : BlockingReason) (destGuardians : List Nat) (source : PathNodeInfo)
    (destination : CDestinationNodeInfo)
    (hd : (st.nodes destination.node).locked = false)
    (hs : (dispatchBypass env st blocker destGuardians source destination).1 = true) :
    (((dispatchBypass env st blocker destGuardians source destination).2.1).nodes
      ((dispatchBypass env st blocker destGuardians source destination).2.2.node)).locked
        = false := by
  cases blocker with
  | NONE => simp [dispatchBypass] at hs
  | DESTINATION_GUARDED =>
    exact bypassDestinationGuards_success_unlocked env st destGuardians source destination hd hs
  | DESTINATION_VISIT => exact hd
  | DESTINATION_BLOCKED =>
    simp only [dispatchBypass] at hs ⊢
    unfold bypassBlocker at hs ⊢
    split at hs
    · rename_i h1
      rw [if_pos h1]
      exact bypassBattle_success_unlocked env st source destination hs
    · simp at hs
  | DESTINATION_BLOCKVIS =>
    cases hobj : destination.nodeObject with
    | none => simp [dispatchBypass, hobj] at hs
    | some obj =>
      simp only [dispatchBypass, hobj] at hs ⊢
      split at hs
      · rename_i h1
        rw [if_pos h1]
        have hd2 : (((bypassRemovableObject env st destination obj).2).nodes
            destination.node).locked = false := by
          rw [bypassRemovableObject_locked_all]
          exact hd
        exact bypassDestinationGuards_success_unlocked env
          (bypassRemovableObject env st destination obj).2 destGuardians source destination
          hd2 hs
      · rename_i h1
        rw [if_neg h1]
        rw [bypassRemovableObject_locked_all]
        exact hd

theorem process_locked_mono (env : Env) (st : AINodeStorage) (source : PathNodeInfo)
    (destination : CDestinationNodeInfo) (k : NodeKey)
    (hd : (st.nodes destination.node).locked = false)
    (hk : (st.nodes k).locked = true) :
    (((process env st source destination).1).nodes k).locked = true := by
  unfold process
  split
  · by_cases hq : k = destination.node <;> simp [updateAINode, hq, hk]
  · split
    · exact hk
    · simp only [updateAINode_nodes]
      by_cases hkn : k = (dispatchBypass env st (env.getBlockingReason source destination)
          (env.getGuardingCreatures destination.coord) source destination).2.2.node
      · rw [if_pos hkn]
        cases hb : (dispatchBypass env st (env.getBlockingReason source destination)
            (env.getGuardingCreatures destination.coord) source destination).1 with
        | false => simp [hb]
        | true =>
          have hu := dispatchBypass_success_unlocked env st
            (env.getBlockingReason source destination)
            (env.getGuardingCreatures destination.coord) source destination hd hb
          have ha := dispatchBypass_locked_all env st
            (env.getBlockingReason source destination)
            (env.getGuardingCreatures destination.coord) source destination
            ((dispatchBypass env st (env.getBlockingReason source destination)
              (env.getGuardingCreatures destination.coord) source destination).2.2.node)
          rw [ha, ← hkn, hk] at hu
          simp at hu
      · rw [if_neg hkn, dispatchBypass_locked_all]
        exact hk

theorem evaluateEdge_locked_mono (env : Env) (st : AINodeStorage) (source : PathNodeInfo)
    (destination : CDestinationNodeInfo) (k : NodeKey)
    (hk : (st.nodes k).locked = true) :
    (((evaluateEdge env st source destination).1).nodes k).locked = true := by
  unfold evaluateEdge
  split
  · exact hk
  · rename_i hd
    exact process_locked_mono env st source destination k (by simpa using hd) hk

/- Claim theorems. -/

/-- Claim C1, counterexample: at a concrete destination hosting a quest guard
whose quest has no mission configured, the removable-object bypass returns
bypass denied (false), refuting the claim that such a destination is treated
as always passable. -/
theorem claim_C1_counterexample :
    (bypassRemovableObject cEnv cStorage cDestQuest cQuestGuardNoMission).1 = false := by
  rfl

/-- Claim C1 (amended): for every edge evaluation whose destination hosts a
quest guard object whose quest has no mission configured, the removable-object
bypass treats the destination as not passable (returns bypass denied) and
attaches no special action to the destination node: the storage is returned
unchanged. -/
theorem claim_C1_amended (env : Env) (st : AINodeStorage)
    (destination : CDestinationNodeInfo) (obj : CGObjectInstance)
    (h1 : obj.ID = ObjID.QUEST_GUARD)
    (h2 : obj.quest.missionType = MissionType.MISSION_NONE) :
    bypassRemovableObject env st destination obj = (false, st) := by
  simp [bypassRemovableObject, h1, h2]

/-- Claim C1, witness: the amended theorem applied at the concrete quest guard
with no mission. -/
theorem claim_C1_witness :
    cQuestGuardNoMission.ID = ObjID.QUEST_GUARD ∧
    cQuestGuardNoMission.quest.missionType = MissionType.MISSION_NONE ∧
    bypassRemovableObject cEnv cStorage cDestQuest cQuestGuardNoMission
      = (false, cStorage) :=
  ⟨rfl, rfl, claim_C1_amended cEnv cStorage cDestQuest cQuestGuardNoMission rfl rfl⟩

/-- Claim C2: within one search pass, once a node's locked flag is true, no
subsequent evaluation through the movement rule ever clears it: across any
sequence of edge evaluations, a locked node stays locked. -/
theorem claim_C2 (env : Env) (st : AINodeStorage)
    (edges : List (PathNodeInfo × CDestinationNodeInfo)) (k : NodeKey)
    (hk : (st.nodes k).locked = true) :
    ((runEvaluations env st edges).nodes k).locked = true := by
  induction edges generalizing st with
  | nil => exact hk
  | cons e es ih =>
    simp only [runEvaluations, List.foldl_cons]
    exact ih _ (evaluateEdge_locked_mono env st e.1 e.2 k hk)

/-- Claim C2, witness: a locked node stays locked across a concrete
one-evaluation sequence. -/
theorem claim_C2_witness :
    (cStorageLocked.nodes cKeyB).locked = true ∧
    ((runEvaluations cEnv cStorageLocked [(cSource, cDestPlain)]).nodes cKeyB).locked
      = true :=
  ⟨rfl, claim_C2 cEnv cStorageLocked [(cSource, cDestPlain)] cKeyB rfl⟩

/-- Claim C3: an edge into a destination whose node is already locked yields
blocked = true without re-running classification or any bypass strategy: the
storage is returned untouched and only the blocked flag of the destination
view changes. -/
theorem claim_C3 (env : Env) (st : AINodeStorage) (source : PathNodeInfo)
    (destination : CDestinationNodeInfo)
    (h : (st.nodes destination.node).locked = true) :
    evaluateEdge env st source destination
      = (st, { destination with blocked := true }) := by
  simp [evaluateEdge, h]

/-- Claim C3, witness: the evaluation of an edge into a concrete locked
destination. -/
theorem claim_C3_witness :
    (cStorageLocked.nodes cDestPlain.node).locked = true ∧
    evaluateEdge cEnv cStorageLocked cSource cDestPlain
      = (cStorageLocked, { cDestPlain with blocked := true }) :=
  ⟨rfl, claim_C3 cEnv cStorageLocked cSource cDestPlain rfl⟩

/-- Claim C4: once battle bypass has its battle-variant node (allocation
succeeded and the node is not locked), the bypass succeeds iff the
oracle-estimated army loss is strictly below the source actor's remaining army
value (army value minus accumulated loss on the source node); equal values
fail. -/
theorem claim_C4 (env : Env) (st : AINodeStorage) (source : PathNodeInfo)
    (destination : CDestinationNodeInfo)
    (hAlloc : st.canAllocateBattleNode (battleNodeKey st destination) = true)
    (hLock : (st.nodes (battleNodeKey st destination)).locked = false) :
    ((bypassBattle env st source destination).1 = true ↔
      estimatedLoss env st source destination < remainingArmyValue st source) ∧
    (estimatedLoss env st source destination = remainingArmyValue st source →
      (bypassBattle env st source destination).1 = false) := by
  have hiff := bypassBattle_accept_iff env st source destination hAlloc hLock
  refine ⟨hiff, fun he => ?_⟩
  by_cases hb : (bypassBattle env st source destination).1 = true
  · have hlt := hiff.mp hb
    rw [he] at hlt
    exact absurd hlt (lt_irrefl _)
  · simpa using hb

/-- Claim C4, witness: the acceptance threshold at a concrete battle bypass
whose battle node is allocatable and unlocked. -/
theorem claim_C4_witness :
    cStorage.canAllocateBattleNode (battleNodeKey cStorage cDestPlain) = true ∧
    (cStorage.nodes (battleNodeKey cStorage cDestPlain)).locked = false ∧
    (((bypassBattle cEnv cStorage cSource cDestPlain).1 = true ↔
      estimatedLoss cEnv cStorage cSource cDestPlain
        < remainingArmyValue cStorage cSource) ∧
    (estimatedLoss cEnv cStorage cSource cDestPlain
        = remainingArmyValue cStorage cSource →
      (bypassBattle cEnv cStorage cSource cDestPlain).1 = false)) :=
  ⟨rfl, rfl, claim_C4 cEnv cStorage cSource cDestPlain rfl rfl⟩

/-- Claim C5: guard bypass fails on an empty destination guardian set;
otherwise, after guardians also present at the source are removed from the
destination set, it succeeds without invoking battle bypass (storage and
destination untouched) precisely when the removal empties the set, the source
had guardians and the source actor allows battle; in every other case the
outcome is exactly that of battle bypass. -/
theorem claim_C5 (env : Env) (st : AINodeStorage) (destGuardians : List Nat)
    (source : PathNodeInfo) (destination : CDestinationNodeInfo) :
    (destGuardians = [] →
      bypassDestinationGuards env st destGuardians source destination
        = (false, st, destination)) ∧
    (destGuardians ≠ [] →
      (destGuardians.filter
          (fun g => ! (env.getGuardingCreatures source.coord).contains g) = []
        ∧ env.getGuardingCreatures source.coord ≠ []) ∧
        (st.actors source.node.actor).allowBattle = true →
      bypassDestinationGuards env st destGuardians source destination
        = (true, st, destination)) ∧
    (destGuardians ≠ [] →
      ¬ ((destGuardians.filter
          (fun g => ! (env.getGuardingCreatures source.coord).contains g) = []
        ∧ env.getGuardingCreatures source.coord ≠ []) ∧
        (st.actors source.node.actor).allowBattle = true) →
      bypassDestinationGuards env st destGuardians source destination
        = bypassBattle env st source destination) := by
  refine ⟨fun h1 => ?_, fun h1 h2 => ?_, fun h1 h2 => ?_⟩
  · simp [bypassDestinationGuards, h1]
  · simp only [bypassDestinationGuards]
    rw [if_neg h1, if_pos h2]
  · simp only [bypassDestinationGuards]
    rw [if_neg h1, if_neg h2]

/-- Claim C5, witness: one guardian at the destination that is already present
at the source, with a battle-allowed source actor: the guard bypass succeeds
without battle. -/
theorem claim_C5_witness :
    (([5] : List Nat) ≠ [] ∧
      (([5] : List Nat).filter
          (fun g => ! (cEnvGuards.getGuardingCreatures cSource.coord).contains g) = []
        ∧ cEnvGuards.getGuardingCreatures cSource.coord ≠ []) ∧
        (cStorage.actors cSource.node.actor).allowBattle = true) ∧
    bypassDestinationGuards cEnvGuards cStorage [5] cSource cDestPlain
      = (true, cStorage, cDestPlain) :=
  ⟨⟨by decide, ⟨by decide, by decide⟩, rfl⟩,
    (claim_C5 cEnvGuards cStorage [5] cSource cDestPlain).2.1 (by decide)
      ⟨⟨by decide, by decide⟩, rfl⟩⟩

/-- Claim C6: every successful battle bypass redirects the destination to the
battle-variant node, adds the computed loss to that node's accumulated army
loss, raises its danger to the maximum of the prior and the newly computed
danger (never a sum), and attaches a simulated-battle special action at the
destination coordinate to the battle node. -/
theorem claim_C6 (env : Env) (st : AINodeStorage) (source : PathNodeInfo)
    (destination : CDestinationNodeInfo)
    (hs : (bypassBattle env st source destination).1 = true) :
    (bypassBattle env st source destination).2.2.node = battleNodeKey st destination ∧
    (((bypassBattle env st source destination).2.1).nodes
        (battleNodeKey st destination)).armyLoss
      = add64 ((st.nodes (battleNodeKey st destination)).armyLoss)
          (estimatedLoss env st source destination) ∧
    (((bypassBattle env st source destination).2.1).nodes
        (battleNodeKey st destination)).danger
      = max ((st.nodes (battleNodeKey st destination)).danger)
          (dangerAtDestination env st source destination) ∧
    (((bypassBattle env st source destination).2.1).nodes
        (battleNodeKey st destination)).specialAction
      = some (SpecialAction.battleAction destination.coord) := by
  obtain ⟨h1, h2, _⟩ := bypassBattle_success_parts env st source destination hs
  rw [h1, h2]
  exact ⟨rfl, battleCommit_armyLoss_self env st source destination,
    battleCommit_danger_self env st source destination,
    battleCommit_action_self env st source destination⟩

/-- Claim C6, witness: a concrete successful battle bypass (danger 400, loss
300 against remaining army 1000). -/
theorem claim_C6_witness :
    (bypassBattle cEnv cStorage cSource cDestPlain).1 = true ∧
    ((bypassBattle cEnv cStorage cSource cDestPlain).2.2.node
        = battleNodeKey cStorage cDestPlain ∧
    (((bypassBattle cEnv cStorage cSource cDestPlain).2.1).nodes
        (battleNodeKey cStorage cDestPlain)).armyLoss
      = add64 ((cStorage.nodes (battleNodeKey cStorage cDestPlain)).armyLoss)
          (estimatedLoss cEnv cStorage cSource cDestPlain) ∧
    (((bypassBattle cEnv cStorage cSource cDestPlain).2.1).nodes
        (battleNodeKey cStorage cDestPlain)).danger
      = max ((cStorage.nodes (battleNodeKey cStorage cDestPlain)).danger)
          (dangerAtDestination cEnv cStorage cSource cDestPlain) ∧
    (((bypassBattle cEnv cStorage cSource cDestPlain).2.1).nodes
        (battleNodeKey cStorage cDestPlain)).specialAction
      = some (SpecialAction.battleAction cDestPlain.coord)) :=
  ⟨by decide, claim_C6 cEnv cStorage cSource cDestPlain (by decide)⟩

/-- Claim C7: for every evaluation reaching the final-verdict step (transition
not inefficient, blocking reason not NONE), the destination's blocked flag is
set to (not allowBypass) or distance-limit-exceeded and the destination
node's locked flag to (not allowBypass); in particular, when bypass is
allowed but the distance limit is exceeded, blocked is true while locked is
false. -/
theorem claim_C7 (env : Env) (st : AINodeStorage) (source : PathNodeInfo)
    (destination : CDestinationNodeInfo)
    (hIneff : env.isMovementIneficient source destination = false)
    (hBlocker : env.getBlockingReason source destination ≠ BlockingReason.NONE) :
    (process env st source destination).2.blocked
      = ((! (dispatchBypass env st (env.getBlockingReason source destination)
            (env.getGuardingCreatures destination.coord) source destination).1)
        || env.isDistanceLimitReached source
            (dispatchBypass env st (env.getBlockingReason source destination)
              (env.getGuardingCreatures destination.coord) source destination).2.2) ∧
    (((process env st source destination).1).nodes
        ((process env st source destination).2.node)).locked
      = (! (dispatchBypass env st (env.getBlockingReason source destination)
            (env.getGuardingCreatures destination.coord) source destination).1) ∧
    ((dispatchBypass env st (env.getBlockingReason source destination)
        (env.getGuardingCreatures destination.coord) source destination).1 = true →
      env.isDistanceLimitReached source
          (dispatchBypass env st (env.getBlockingReason source destination)
            (env.getGuardingCreatures destination.coord) source destination).2.2
        = true →
      (process env st source destination).2.blocked = true ∧
      (((process env st source destination).1).nodes
          ((process env st source destination).2.node)).locked = false) := by
  have hb : (process env st source destination).2.blocked
      = ((! (dispatchBypass env st (env.getBlockingReason source destination)
            (env.getGuardingCreatures destination.coord) source destination).1)
        || env.isDistanceLimitReached source
            (dispatchBypass env st (env.getBlockingReason source destination)
              (env.getGuardingCreatures destination.coord) source destination).2.2) := by
    simp only [process]
    rw [if_neg (by simp [hIneff]), if_neg hBlocker]
  have hl : (((process env st source destination).1).nodes
        ((process env st source destination).2.node)).locked
      = (! (dispatchBypass env st (env.getBlockingReason source destination)
            (env.getGuardingCreatures destination.coord) source destination).1) := by
    simp only [process]
    rw [if_neg (by simp [hIneff]), if_neg hBlocker]
    simp [updateAINode_nodes]
  refine ⟨hb, hl, fun h1 h2 => ?_⟩
  rw [hb, hl, h1, h2]
  simp

/-- Claim C7, witness: a DESTINATION_VISIT classification, where the bypass is
allowed and the distance limit not reached. -/
theorem claim_C7_witness :
    cEnvVisit.isMovementIneficient cSource cDestPlain = false ∧
    cEnvVisit.getBlockingReason cSource cDestPlain ≠ BlockingReason.NONE ∧
    ((process cEnvVisit cStorage cSource cDestPlain).2.blocked
      = ((! (dispatchBypass cEnvVisit cStorage
            (cEnvVisit.getBlockingReason cSource cDestPlain)
            (cEnvVisit.getGuardingCreatures cDestPlain.coord) cSource cDestPlain).1)
        || cEnvVisit.isDistanceLimitReached cSource
            (dispatchBypass cEnvVisit cStorage
              (cEnvVisit.getBlockingReason cSource cDestPlain)
              (cEnvVisit.getGuardingCreatures cDestPlain.coord) cSource cDestPlain).2.2) ∧
    (((process cEnvVisit cStorage cSource cDestPlain).1).nodes
        ((process cEnvVisit cStorage cSource cDestPlain).2.node)).locked
      = (! (dispatchBypass cEnvVisit cStorage
            (cEnvVisit.getBlockingReason cSource cDestPlain)
            (cEnvVisit.getGuardingCreatures cDestPlain.coord) cSource cDestPlain).1) ∧
    ((dispatchBypass cEnvVisit cStorage (cEnvVisit.getBlockingReason cSource cDestPlain)
        (cEnvVisit.getGuardingCreatures cDestPlain.coord) cSource cDestPlain).1 = true →
      cEnvVisit.isDistanceLimitReached cSource
          (dispatchBypass cEnvVisit cStorage
            (cEnvVisit.getBlockingReason cSource cDestPlain)
            (cEnvVisit.getGuardingCreatures cDestPlain.coord) cSource cDestPlain).2.2
        = true →
      (process cEnvVisit cStorage cSource cDestPlain).2.blocked = true ∧
      (((process cEnvVisit cStorage cSource cDestPlain).1).nodes
          ((process cEnvVisit cStorage cSource cDestPlain).2.node)).locked = false)) :=
  ⟨rfl, by decide, claim_C7 cEnvVisit cStorage cSource cDestPlain rfl (by decide)⟩

/-- Claim C8: for a blockvis destination not occupied by an enemy hero, with a
non-removable, non-quest-guard-like object, the removable-object bypass
succeeds exactly when the node-storage hero of the destination node is the
hero occupying that destination (own-hero re-entry), and it never mutates the
storage, so no special action is attached. -/
theorem claim_C8 (env : Env) (st : AINodeStorage) (destination : CDestinationNodeInfo)
    (obj : CGObjectInstance)
    (hq : ¬ (obj.ID = ObjID.QUEST_GUARD ∨ obj.ID = ObjID.BORDERGUARD
      ∨ obj.ID = ObjID.BORDER_GATE))
    (he : ¬ enemyHeroAt destination)
    (hr : env.isObjectRemovable obj = false) :
    ((bypassRemovableObject env st destination obj).1 = true ↔
      getHero st destination.node = destination.nodeHero) ∧
    (bypassRemovableObject env st destination obj).2 = st := by
  simp only [bypassRemovableObject, if_neg hq]
  rw [if_pos (⟨he, hr⟩ : ¬ enemyHeroAt destination ∧ env.isObjectRemovable obj = false)]
  by_cases hh : getHero st destination.node = destination.nodeHero <;> simp [hh]

/-- Claim C8, witness: a non-removable non-quest object on a tile occupied by
the evaluating actor's own hero. -/
theorem claim_C8_witness :
    (¬ (cBoulder.ID = ObjID.QUEST_GUARD ∨ cBoulder.ID = ObjID.BORDERGUARD
      ∨ cBoulder.ID = ObjID.BORDER_GATE) ∧
    ¬ enemyHeroAt cDestOwnHero ∧
    cEnv.isObjectRemovable cBoulder = false) ∧
    (((bypassRemovableObject cEnv cStorage cDestOwnHero cBoulder).1 = true ↔
      getHero cStorage cDestOwnHero.node = cDestOwnHero.nodeHero) ∧
    (bypassRemovableObject cEnv cStorage cDestOwnHero cBoulder).2 = cStorage) :=
  ⟨⟨by decide, by decide, rfl⟩,
    claim_C8 cEnv cStorage cDestOwnHero cBoulder (by decide) (by decide) rfl⟩

/-- Claim C9: when node storage reports the transition as inefficient, the
rule locks and blocks the destination and returns at once: the result is
exactly the input with the destination node's locked flag and the blocked
flag set, with no classification and no bypass strategy run. -/
theorem claim_C9 (env : Env) (st : AINodeStorage) (source : PathNodeInfo)
    (destination : CDestinationNodeInfo)
    (h : env.isMovementIneficient source destination = true) :
    process env st source destination
      = (updateAINode st destination.node (fun n => { n with locked := true }),
        { destination with blocked := true }) ∧
    (((process env st source destination).1).nodes destination.node).locked = true ∧
    (process env st source destination).2.blocked = true := by
  have hp : process env st source destination
      = (updateAINode st destination.node (fun n => { n with locked := true }),
        { destination with blocked := true }) := by
    simp [process, h]
  refine ⟨hp, ?_, ?_⟩
  · rw [hp]
    simp [updateAINode_nodes]
  · rw [hp]

/-- Claim C9, witness: a concrete inefficient transition. -/
theorem claim_C9_witness :
    cEnvIneff.isMovementIneficient cSource cDestPlain = true ∧
    (process cEnvIneff cStorage cSource cDestPlain
      = (updateAINode cStorage cDestPlain.node (fun n => { n with locked := true }),
        { cDestPlain with blocked := true }) ∧
    (((process cEnvIneff cStorage cSource cDestPlain).1).nodes cDestPlain.node).locked
      = true ∧
    (process cEnvIneff cStorage cSource cDestPlain).2.blocked = true) :=
  ⟨rfl, claim_C9 cEnvIneff cStorage cSource cDestPlain rfl⟩

/-- Claim C10: the remaining army value used by battle bypass is the unsigned
64-bit subtraction of the source node's accumulated army loss from the source
actor's army value; when the accumulated loss exceeds the army value the
subtraction wraps modulo 2^64, and the strict-less-than acceptance test is
evaluated against the wrapped value. -/
theorem claim_C10 (env : Env) (st : AINodeStorage) (source : PathNodeInfo)
    (destination : CDestinationNodeInfo)
    (hv : (st.actors source.node.actor).armyValue < 2 ^ 64)
    (hl : (st.nodes source.node).armyLoss < 2 ^ 64)
    (hgt : (st.actors source.node.actor).armyValue < (st.nodes source.node).armyLoss)
    (hAlloc : st.canAllocateBattleNode (battleNodeKey st destination) = true)
    (hLock : (st.nodes (battleNodeKey st destination)).locked = false) :
    remainingArmyValue st source
      = ((st.actors source.node.actor).armyValue + 2 ^ 64
          - (st.nodes source.node).armyLoss) % 2 ^ 64 ∧
    remainingArmyValue st source
      = 2 ^ 64 - ((st.nodes source.node).armyLoss
          - (st.actors source.node.actor).armyValue) ∧
    ((bypassBattle env st source destination).1 = true ↔
      estimatedLoss env st source destination < remainingArmyValue st source) := by
  have hv2 : (st.actors source.node.actor).armyValue < U64 := by
    rw [U64_eq_pow]; exact hv
  have hl2 : (st.nodes source.node).armyLoss < U64 := by
    rw [U64_eq_pow]; exact hl
  refine ⟨?_, ?_, bypassBattle_accept_iff env st source destination hAlloc hLock⟩
  · rw [remainingArmyValue, sub64_no_wrap _ _ hv2 hl2, U64_eq_pow]
  · rw [remainingArmyValue, sub64_wrap _ _ hv2 hl2 hgt, U64_eq_pow]

/-- Claim C10, witness: army value 10 with accumulated loss 25: the remaining
army value wraps to 2^64 - 15 and the acceptance test compares the estimated
loss against that wrapped value. -/
theorem claim_C10_witness :
    ((cStorageWrapped.actors cSource.node.actor).armyValue < 2 ^ 64 ∧
    (cStorageWrapped.nodes cSource.node).armyLoss < 2 ^ 64 ∧
    (cStorageWrapped.actors cSource.node.actor).armyValue
      < (cStorageWrapped.nodes cSource.node).armyLoss ∧
    cStorageWrapped.canAllocateBattleNode (battleNodeKey cStorageWrapped cDestPlain)
      = true ∧
    (cStorageWrapped.nodes (battleNodeKey cStorageWrapped cDestPlain)).locked = false) ∧
    (remainingArmyValue cStorageWrapped cSource
      = ((cStorageWrapped.actors cSource.node.actor).armyValue + 2 ^ 64
          - (cStorageWrapped.nodes cSource.node).armyLoss) % 2 ^ 64 ∧
    remainingArmyValue cStorageWrapped cSource
      = 2 ^ 64 - ((cStorageWrapped.nodes cSource.node).armyLoss
          - (cStorageWrapped.actors cSource.node.actor).armyValue) ∧
    ((bypassBattle cEnv cStorageWrapped cSource cDestPlain).1 = true ↔
      estimatedLoss cEnv cStorageWrapped cSource cDestPlain
        < remainingArmyValue cStorageWrapped cSource)) :=
  ⟨⟨by decide, by decide, by decide, rfl, rfl⟩,
    claim_C10 cEnv cStorageWrapped cSource cDestPlain (by decide) (by decide)
      (by decide) rfl rfl⟩

end AIPathfinding
